import Mathlib

/-!
# Verification of `hetzner_vrrp_failover`

Shallow embedding of the reconciliation logic of the
`vyos-hetzner-vrrp-failover` repository
(`hetzner_vrrp_failover/failover.py`, `config.py`, `cli.py`), together
with theorems settling the specification claims.

Conventions of the embedding:

* Machine state that the Python code obtains from the Hetzner Cloud API
  (floating IPs, the server object with its private networks) is a
  `Provider` record; whether an individual API call succeeds or raises is
  recorded by boolean oracles in that record (`listOk`, `serverOk`,
  `assignOk`, `changeAliasOk`).  A raised-and-uncaught exception becomes
  `Except.error`; an exception caught by a surrounding `except` block
  becomes the `False` outcome that block returns.
* Every mutating Cloud API call the code issues is recorded, in order, in
  a trace of `ApiCall` values.  Read-only calls (listing, server lookup)
  are not traced; their success is governed by the oracles.
* Python's `list(set(xs))` (deduplication in unspecified order) is
  modelled by `List.dedup`; theorems about alias payloads are stated
  set-wise, never about the arbitrary order.
* Python's `ipaddress` stdlib module is modelled by an `IpLib` record
  (parse to a protocol version, canonical textual form).  Universal
  theorems quantify over an arbitrary `IpLib`; closed witness and
  counterexample runs use the executable `realIpLib`, which implements
  full IPv4 textual validation (the only shape those runs use) and
  approximates IPv6.
-/

namespace HetznerVrrp

/-- A floating IP as returned by the Cloud API: its numeric id, its
address, and the id of the server currently owning it (`none` when
unassigned), mirroring `fip.id`, `fip.ip`, `fip.server`. -/
structure FloatingIP where
  id : Int
  ip : String
  server : Option Int
deriving DecidableEq, Repr

/-- One private-network membership of the server (`pnet` in
`failover.py`): the network id, the server's own address on that network,
and the current alias list (`None` possible, as in the API). -/
structure PrivateNet where
  network : Int
  ip : String
  alias_ips : Option (List String)
deriving DecidableEq, Repr

/-- The server object fetched by the cached `server` property; only its
private-network memberships are consulted by the reconciliation logic. -/
structure Server where
  private_net : List PrivateNet
deriving DecidableEq, Repr

/-- The configuration fields `assign_alias_ips` and the floating-IP phase
read: the label selector mapping and the declared alias addresses. -/
structure Config where
  floating_ip_labels : List (String × String)
  alias_ips : List String
deriving DecidableEq, Repr

/-- The provider-side world for one run: the floating IPs the label query
would return, the server object, and success oracles for each kind of
API call (`false` = that call raises). -/
structure Provider where
  listOk : Bool
  floating_ips : List FloatingIP
  serverOk : Bool
  server : Server
  assignOk : Int → Bool
  changeAliasOk : Int → Bool

/-- A mutating Cloud API call, as recorded in execution traces:
`floating_ip.assign(server)` or `client.servers.change_alias_ips`. -/
inductive ApiCall where
  | assignFloatingIP (fipId : Int)
  | changeAliasIPs (network : Int) (aliases : List String)
deriving DecidableEq, Repr

/-- Model of the `ipaddress` stdlib collaborator: `parse` returns the
protocol version (4 or 6) of a textual address or `none` for a
`ValueError`; `canon` is the canonical form `str(ip_address(s))` used by
the IPv6 prefix comparison. -/
structure IpLib where
  parse : String → Option Nat
  canon : String → String

/-- Python's truthiness test `if fip.server and fip.server.id == self.server_id`
from `assign_all_floating_ips`. -/
def fipOwnedBy (fip : FloatingIP) (sid : Int) : Bool :=
  match fip.server with
  | some owner => owner == sid
  | none => false

/-- `get_floating_ips_by_labels`: with no labels configured it returns
`[]` after a warning; otherwise it queries the API and wraps any failure
in a raised `HetznerAPIError` (modelled as `Except.error`). -/
def get_floating_ips_by_labels (cfg : Config) (p : Provider) :
    Except Unit (List FloatingIP) :=
  if cfg.floating_ip_labels.isEmpty then .ok []
  else if p.listOk then .ok p.floating_ips
  else .error ()

/-- `assign_floating_ip`: in dry-run mode it only logs and returns `True`;
otherwise it evaluates the cached `server` property (whose failure is
caught by this method's own `except`, yielding `False` with no call
issued) and then issues the `assign` call, catching a failure as
`False`.  Returns (result, issued mutating calls). -/
def assign_floating_ip (p : Provider) (dry_run : Bool) (fip : FloatingIP) :
    Bool × List ApiCall :=
  if dry_run then (true, [])
  else if p.serverOk then (p.assignOk fip.id, [ApiCall.assignFloatingIP fip.id])
  else (false, [])

/-- The loop body of `assign_all_floating_ips`: skip a floating IP already
assigned to this server, otherwise attempt assignment; `success` is the
conjunction over all attempts and the trace concatenates their calls. -/
def processFips (p : Provider) (dry_run : Bool) (sid : Int) :
    List FloatingIP → Bool × List ApiCall
  | [] => (true, [])
  | fip :: rest =>
    if fipOwnedBy fip sid then processFips p dry_run sid rest
    else
      let r := assign_floating_ip p dry_run fip
      let rs := processFips p dry_run sid rest
      (r.1 && rs.1, r.2 ++ rs.2)

/-- `assign_all_floating_ips`: fetches the floating IPs (an uncaught
`HetznerAPIError` from the query propagates), returns `True` when none
are found, else folds the per-IP results. -/
def assign_all_floating_ips (cfg : Config) (p : Provider) (dry_run : Bool)
    (sid : Int) : Except Unit (Bool × List ApiCall) := do
  let fips ← get_floating_ips_by_labels cfg p
  if fips.isEmpty then pure (true, [])
  else pure (processFips p dry_run sid fips)

/-- Python `s.split(sep)` for a one-character separator, over the
character list of the string (structural, so that closed runs reduce in
the kernel). -/
def splitOnChar (sep : Char) : List Char → List (List Char)
  | [] => [[]]
  | c :: rest =>
    let r := splitOnChar sep rest
    if c = sep then [] :: r
    else
      match r with
      | [] => [[c]]
      | g :: gs => (c :: g) :: gs

/-- Python `".".join(parts)` over character lists. -/
def joinDot : List (List Char) → List Char
  | [] => []
  | [g] => g
  | g :: gs => g ++ '.' :: joinDot gs

/-- `".".join(s.split(".")[:-1])` — the first-three-octets prefix used by
the IPv4 subnet heuristic in `assign_alias_ips`. -/
def dropLastOctet (s : String) : String :=
  ⟨joinDot (splitOnChar '.' s.data).dropLast⟩

/-- The inner matching loop of `assign_alias_ips` for one declared
address: walk the private networks in order, parse the membership address
and the declared address (a `ValueError` propagates to the phase-level
`except`, modelled as `Except.error`), require equal protocol versions,
compare the IPv4 first-three-octets prefix or the first 19 characters of
the IPv6 canonical forms, and return the first matching network. -/
def matchAlias (lib : IpLib) (a : String) :
    List PrivateNet → Except Unit (Option Int)
  | [] => .ok none
  | pnet :: rest =>
    match lib.parse pnet.ip with
    | none => .error ()
    | some sv =>
      match lib.parse a with
      | none => .error ()
      | some av =>
        if sv = av then
          if sv = 4 then
            if dropLastOctet pnet.ip = dropLastOctet a then .ok (some pnet.network)
            else matchAlias lib a rest
          else
            if (lib.canon pnet.ip).take 19 = (lib.canon a).take 19 then
              .ok (some pnet.network)
            else matchAlias lib a rest
        else matchAlias lib a rest

/-- `network_aliases.setdefault(pnet.network, []).append(alias_ip)`:
append to the group of an existing network key, preserving dict insertion
order, or create a new group at the end. -/
def setdefaultAppend (net : Int) (a : String) :
    List (Int × List String) → List (Int × List String)
  | [] => [(net, [a])]
  | (n, g) :: rest =>
    if n = net then (n, g ++ [a]) :: rest
    else (n, g) :: setdefaultAppend net a rest

/-- The grouping loop of `assign_alias_ips`: run the matcher over every
declared address in order, partitioning into insertion-ordered
`{network ↦ addresses}` groups and the unmatched list; a parse error
aborts the whole loop. -/
def groupAliases (lib : IpLib) (pnets : List PrivateNet) :
    List String → List (Int × List String) → List String →
    Except Unit (List (Int × List String) × List String)
  | [], groups, unmatched => .ok (groups, unmatched)
  | a :: rest, groups, unmatched =>
    match matchAlias lib a pnets with
    | .error _ => .error ()
    | .ok (some net) => groupAliases lib pnets rest (setdefaultAppend net a groups) unmatched
    | .ok none => groupAliases lib pnets rest groups (unmatched ++ [a])

/-- `current_aliases` lookup in `assign_alias_ips`: the alias list of the
first private network with the given network id (`pnet.alias_ips or []`),
or `[]` when none matches. -/
def currentAliases (server : Server) (net : Int) : List String :=
  match server.private_net.find? (fun pnet => pnet.network == net) with
  | some pnet => pnet.alias_ips.getD []
  | none => []

/-- Python's `list(set(xs))`: same members, no duplicates, order
unspecified (the model fixes one; theorems are stated set-wise). -/
def pySet (xs : List String) : List String := xs.dedup

/-- The payload `all_aliases = list(set(current_aliases + aliases_to_add))`
handed to `change_alias_ips` for one subnet group. -/
def aliasPayload (server : Server) (g : Int × List String) : List String :=
  pySet (currentAliases server g.1 ++ g.2)

/-- The assignment loop over subnet groups in `assign_alias_ips`: in
dry-run mode every group is only reported (`continue`); in live mode the
`change_alias_ips` call is issued for every group unconditionally, and a
raised failure is caught by the phase-level `except`, ending the loop
with result `False` and the remaining groups unattempted. -/
def changeAliasCalls (p : Provider) (dry_run : Bool) (server : Server) :
    List (Int × List String) → Bool × List ApiCall
  | [] => (true, [])
  | g :: rest =>
    if dry_run then changeAliasCalls p dry_run server rest
    else
      let c := ApiCall.changeAliasIPs g.1 (aliasPayload server g)
      if p.changeAliasOk g.1 then
        let r := changeAliasCalls p dry_run server rest
        (r.1, c :: r.2)
      else (false, [c])

/-- `assign_alias_ips`: trivial success with no configured aliases;
otherwise fetch the server (failure caught by the phase `except` →
`False`), fail when no private network is attached, group the declared
addresses by network (a parse error is caught by the phase `except` →
`False`), fail when no address matched any network, and run the
per-group assignment loop.  Returns (result, issued mutating calls). -/
def assign_alias_ips (lib : IpLib) (cfg : Config) (p : Provider)
    (dry_run : Bool) : Bool × List ApiCall :=
  if cfg.alias_ips.isEmpty then (true, [])
  else if !p.serverOk then (false, [])
  else if p.server.private_net.isEmpty then (false, [])
  else
    match groupAliases lib p.server.private_net cfg.alias_ips [] [] with
    | .error _ => (false, [])
    | .ok (groups, _unmatched) =>
      if groups.isEmpty then (false, [])
      else changeAliasCalls p dry_run p.server groups

/-- `execute_failover`: run the floating-IP phase (whose uncaught listing
exception propagates, preventing the alias phase), then the alias phase,
returning the conjunction of the two outcomes and the concatenated call
trace. -/
def execute_failover (lib : IpLib) (cfg : Config) (p : Provider)
    (dry_run : Bool) (sid : Int) : Except Unit (Bool × List ApiCall) := do
  let fr ← assign_all_floating_ips cfg p dry_run sid
  let ar := assign_alias_ips lib cfg p dry_run
  pure (fr.1 && ar.1, fr.2 ++ ar.2)

/-- Decimal value of a digit string. -/
def charsToNat (cs : List Char) : Nat :=
  cs.foldl (fun n c => n * 10 + (c.toNat - 48)) 0

/-- One dot-decimal IPv4 octet as accepted by `ipaddress.ip_address`:
one to three decimal digits, value at most 255, no leading zero. -/
def isIPv4Octet (cs : List Char) : Bool :=
  decide (0 < cs.length) && decide (cs.length ≤ 3) &&
    cs.all Char.isDigit &&
    (cs == ['0'] || decide (cs.headD ' ' ≠ '0')) &&
    decide (charsToNat cs ≤ 255)

/-- Textual IPv4 validity: exactly four valid octets separated by dots. -/
def parsesIPv4 (s : String) : Bool :=
  let parts := splitOnChar '.' s.data
  parts.length == 4 && parts.all isIPv4Octet

/-- Loose IPv6 shape: contains a colon and only hexadecimal digits and
colons. -/
def looksIPv6 (s : String) : Bool :=
  s.data.contains ':' &&
    s.data.all (fun c =>
      c.isDigit || (decide ('a' ≤ c) && decide (c ≤ 'f')) ||
        (decide ('A' ≤ c) && decide (c ≤ 'F')) || c = ':')

/-- Executable instance of the `ipaddress` model: full IPv4 textual
validation; IPv6 approximated by shape with the canonical form taken as
the input itself.  Used only in closed concrete runs on IPv4-shaped
inputs, where it agrees with the Python stdlib. -/
def realIpLib : IpLib where
  parse s := if parsesIPv4 s then some 4 else if looksIPv6 s then some 6 else none
  canon s := s

/-! ## Configuration validation (`config.py`) -/

/-- A YAML scalar or container stored under a configuration key, with
just enough structure to carry Python truthiness. -/
inductive YamlValue where
  | vStr (s : String)
  | vInt (n : Int)
  | vBool (b : Bool)
  | vNull
  | vList (l : List String)
deriving DecidableEq, Repr

/-- Python truthiness of a stored YAML value. -/
def YamlValue.pyTruthy : YamlValue → Bool
  | .vStr s => !s.isEmpty
  | .vInt n => n != 0
  | .vBool b => b
  | .vNull => false
  | .vList l => !l.isEmpty

/-- The parsed configuration document (`self._config`), a key → value
mapping. -/
structure ConfigDoc where
  entries : List (String × YamlValue)
deriving DecidableEq, Repr

/-- `self._config.get(key)`: the stored value, or `none` when absent. -/
def ConfigDoc.get (d : ConfigDoc) (k : String) : Option YamlValue :=
  (d.entries.find? (fun e => e.1 == k)).map (fun e => e.2)

/-- Truthiness of `self._config.get(field)` as tested by `_validate`
(`if not self._config.get(field)`). -/
def ConfigDoc.truthyAt (d : ConfigDoc) (k : String) : Bool :=
  match d.get k with
  | none => false
  | some v => v.pyTruthy

/-- `Config.REQUIRED_FIELDS`. -/
def REQUIRED_FIELDS : List String := ["hetzner_api_token"]

/-- The valid log levels checked by `_validate`. -/
def VALID_LEVELS : List String := ["DEBUG", "INFO", "WARNING", "ERROR", "CRITICAL"]

/-- The required-field loop of `Config._validate`: raise `ConfigError`
for the first field whose stored value is absent or falsy.  (The Python
message quotes the field name; the quotes are elided here.) -/
def validateRequired (d : ConfigDoc) : List String → Except String Unit
  | [] => .ok ()
  | f :: rest =>
    if d.truthyAt f then validateRequired d rest
    else .error ("Required field " ++ f ++ " missing in config")

/-- The log-level check of `Config._validate`: the stored value (default
`INFO` when the key is absent) must upper-case to a valid level; a
non-string stored value has no `.upper` and raises (modelled as a
distinct error). -/
def checkLogLevel (d : ConfigDoc) : Except String Unit :=
  match d.get "log_level" with
  | none => .ok ()
  | some (.vStr s) =>
    if VALID_LEVELS.contains s.toUpper then .ok ()
    else .error ("Invalid log_level " ++ s)
  | some _ => .error "AttributeError"

/-- `Config._validate`: required fields first, then the log level. -/
def validateConfig (d : ConfigDoc) : Except String Unit := do
  validateRequired d REQUIRED_FIELDS
  checkLogLevel d

/-! ## CLI (`cli.py`) -/

/-- The parsed argument namespace of `create_parser`. -/
structure Args where
  config_path : String
  dry_run : Bool
  fake_server_id : Option Int
deriving DecidableEq, Repr

/-- Python truthiness of `args.fake_server_id` (an `Optional[int]`):
`None` and `0` are falsy. -/
def pyTruthyOptInt : Option Int → Bool
  | none => false
  | some n => n != 0

/-- The exact usage message printed by `main` when `--fake-server-id`
is combined with a live run. -/
def usageErrorMsg : String :=
  "Error: --fake-server-id can only be used with --dry-run"

/-- The non-CLI collaborators one `main` invocation runs against:
configuration loading (`Config(args.config)`, error = `ConfigError`),
the metadata service (`get_server_id`, error = `MetadataError`), the
address library, and the cloud provider. -/
structure World where
  configResult : Except Unit Config
  metadataResult : Except Unit Int
  ipLib : IpLib
  provider : Provider

/-- What one `main` invocation produces: the process exit code, the
lines printed to stderr, and the mutating Cloud API calls issued. -/
structure MainResult where
  exitCode : Int
  stderr : List String
  calls : List ApiCall
deriving DecidableEq, Repr

/-- The server-id resolution inside `main`: a truthy `--fake-server-id`
installs a mock metadata service returning that id; otherwise the real
metadata service is consulted. -/
def resolveServerId (args : Args) (w : World) : Except Unit Int :=
  if pyTruthyOptInt args.fake_server_id then .ok (args.fake_server_id.getD 0)
  else w.metadataResult

/-- `main`: the usage guard for `--fake-server-id` without `--dry-run`
runs before anything else; then the configuration is loaded, the server
id resolved, and either `dry_run_validate` (which always returns 0 once
the floating-IP listing succeeded) or `execute_failover` is run.  Every
`HetznerVRRPError` (and any other exception) is caught at the bottom of
`main` as exit code 1 with a generic stderr line. -/
def main (args : Args) (w : World) : MainResult :=
  if pyTruthyOptInt args.fake_server_id && !args.dry_run then
    ⟨1, [usageErrorMsg], []⟩
  else
    match w.configResult with
    | .error _ => ⟨1, ["Error: config"], []⟩
    | .ok cfg =>
      match resolveServerId args w with
      | .error _ => ⟨1, ["Error: metadata"], []⟩
      | .ok sid =>
        if args.dry_run then
          match get_floating_ips_by_labels cfg w.provider with
          | .error _ => ⟨1, ["Error: api"], []⟩
          | .ok _ => ⟨0, [], []⟩
        else
          match execute_failover w.ipLib cfg w.provider false sid with
          | .error _ => ⟨1, ["Error: api"], []⟩
          | .ok r => ⟨if r.1 then 0 else 1, [], r.2⟩

/-! ## Concrete instances used in closed runs -/

/-- A server whose single private network already carries the declared
alias: the converged state. -/
def srvA : Server := ⟨[⟨1, "10.0.0.5", some ["10.0.0.100"]⟩]⟩

/-- Declared state matching `srvA`: one label selector, one alias. -/
def cfgA : Config := ⟨[("role", "vrrp")], ["10.0.0.100"]⟩

/-- Fully converged provider: the one floating IP is owned by server 7,
the alias is present, every call succeeds. -/
def pA : Provider := ⟨true, [⟨1, "1.2.3.4", some 7⟩], true, srvA, fun _ => true, fun _ => true⟩

/-- Two private networks, both with empty alias lists. -/
def srvB : Server := ⟨[⟨1, "10.0.0.5", some []⟩, ⟨2, "10.0.1.5", some []⟩]⟩

/-- Two declared aliases, one per network of `srvB`. -/
def cfgB : Config := ⟨[], ["10.0.0.100", "10.0.1.100"]⟩

/-- Provider in which the alias mutation for network 1 fails and the one
for network 2 would succeed. -/
def pB : Provider := ⟨true, [], true, srvB, fun _ => true, fun n => n != 1⟩

/-- Labels configured but no aliases. -/
def cfgC : Config := ⟨[("role", "vrrp")], []⟩

/-- Provider whose floating-IP listing call fails. -/
def pC : Provider := ⟨false, [], true, srvA, fun _ => true, fun _ => true⟩

/-- One private network with an empty alias list. -/
def srvD : Server := ⟨[⟨1, "10.0.0.5", some []⟩]⟩

/-- An unparseable declared alias followed by a matchable one. -/
def cfgD : Config := ⟨[], ["bogus", "10.0.0.100"]⟩

/-- The same declaration without the unparseable entry. -/
def cfgD2 : Config := ⟨[], ["10.0.0.100"]⟩

/-- Benign provider for the alias-parsing runs. -/
def pD : Provider := ⟨true, [], true, srvD, fun _ => true, fun _ => true⟩

/-- Three floating IPs: one owned by server 7, one owned by server 9,
one unassigned; reassignment of IP 2 fails. -/
def pE : Provider :=
  ⟨true, [⟨1, "a", some 7⟩, ⟨2, "b", some 9⟩, ⟨3, "c", none⟩], true, ⟨[]⟩,
    fun i => i != 2, fun _ => true⟩

/-- Labels configured, no aliases (floating-phase runs). -/
def cfgE : Config := ⟨[("role", "vrrp")], []⟩

/-- `--fake-server-id 0` without `--dry-run`. -/
def argsZero : Args := ⟨"cfg", false, some 0⟩

/-- `--fake-server-id 5` without `--dry-run`. -/
def argsFive : Args := ⟨"cfg", false, some 5⟩

/-- A plain `--dry-run` invocation. -/
def argsDry : Args := ⟨"cfg", true, none⟩

/-- A world whose configuration has no labels and no aliases and whose
collaborators all succeed. -/
def worldA : World := ⟨.ok ⟨[], []⟩, .ok 7, realIpLib, pD⟩

/-- A world for dry-run: labels configured, three floating IPs of which
two need reassignment. -/
def worldDry : World := ⟨.ok cfgE, .ok 7, realIpLib, pE⟩

/-- A configuration document whose token is present but empty. -/
def docEmptyToken : ConfigDoc := ⟨[("hetzner_api_token", .vStr "")]⟩

/-- A configuration document without the token key. -/
def docNoToken : ConfigDoc := ⟨[]⟩

/-! ## Helper lemmas -/

lemma processFips_dry (p : Provider) (sid : Int) (fips : List FloatingIP) :
    processFips p true sid fips = (true, []) := by
  induction fips with
  | nil => rfl
  | cons fip rest ih =>
    cases h : fipOwnedBy fip sid with
    | true => simp [processFips, h, ih]
    | false => simp [processFips, h, ih, assign_floating_ip]

lemma processFips_owned (p : Provider) (dry : Bool) (sid : Int)
    (fips : List FloatingIP) (how : ∀ fip ∈ fips, fipOwnedBy fip sid = true) :
    processFips p dry sid fips = (true, []) := by
  induction fips with
  | nil => rfl
  | cons fip rest ih =>
    have h1 := how fip (by simp)
    simp [processFips, h1, ih fun f hf => how f (by simp [hf])]

lemma processFips_live (p : Provider) (sid : Int) (h : p.serverOk = true)
    (fips : List FloatingIP) :
    processFips p false sid fips =
      ((fips.filter fun f => !fipOwnedBy f sid).all fun f => p.assignOk f.id,
       (fips.filter fun f => !fipOwnedBy f sid).map
         fun f => ApiCall.assignFloatingIP f.id) := by
  induction fips with
  | nil => rfl
  | cons fip rest ih =>
    cases hf : fipOwnedBy fip sid with
    | true => simp [processFips, hf, ih, List.filter_cons]
    | false => simp [processFips, hf, ih, List.filter_cons, assign_floating_ip, h]

lemma assign_all_owned (cfg : Config) (p : Provider) (dry : Bool) (sid : Int)
    (hl : p.listOk = true)
    (how : ∀ fip ∈ p.floating_ips, fipOwnedBy fip sid = true) :
    assign_all_floating_ips cfg p dry sid = .ok (true, []) := by
  unfold assign_all_floating_ips get_floating_ips_by_labels
  cases he : cfg.floating_ip_labels.isEmpty with
  | true => simp [he, Bind.bind, Except.bind, Pure.pure, Except.pure]
  | false =>
    simp only [he, hl, Bool.false_eq_true, if_false, if_true, Bind.bind, Except.bind]
    cases hfe : p.floating_ips.isEmpty with
    | true => simp [hfe, Pure.pure, Except.pure]
    | false => simp [hfe, Pure.pure, Except.pure,
        processFips_owned p dry sid p.floating_ips how]

lemma changeAliasCalls_dry (p : Provider) (server : Server)
    (gs : List (Int × List String)) :
    changeAliasCalls p true server gs = (true, []) := by
  induction gs with
  | nil => rfl
  | cons g rest ih => simp [changeAliasCalls, ih]

lemma changeAliasCalls_allOk (p : Provider) (server : Server)
    (gs : List (Int × List String))
    (hok : ∀ g ∈ gs, p.changeAliasOk g.1 = true) :
    changeAliasCalls p false server gs =
      (true, gs.map fun g => ApiCall.changeAliasIPs g.1 (aliasPayload server g)) := by
  induction gs with
  | nil => rfl
  | cons g rest ih =>
    have h1 := hok g (by simp)
    simp [changeAliasCalls, h1, ih fun x hx => hok x (by simp [hx])]

lemma changeAliasCalls_fail (p : Provider) (server : Server)
    (pre : List (Int × List String)) (g : Int × List String)
    (post : List (Int × List String))
    (hpre : ∀ x ∈ pre, p.changeAliasOk x.1 = true)
    (hg : p.changeAliasOk g.1 = false) :
    changeAliasCalls p false server (pre ++ g :: post) =
      (false,
        (pre.map fun x => ApiCall.changeAliasIPs x.1 (aliasPayload server x)) ++
          [ApiCall.changeAliasIPs g.1 (aliasPayload server g)]) := by
  induction pre with
  | nil => simp [changeAliasCalls, hg]
  | cons x rest ih =>
    have h1 := hpre x (by simp)
    simp [changeAliasCalls, h1, ih fun y hy => hpre y (by simp [hy])]

lemma changeAliasCalls_mem (p : Provider) (dry : Bool) (server : Server)
    (gs : List (Int × List String)) (c : ApiCall)
    (hc : c ∈ (changeAliasCalls p dry server gs).2) :
    ∃ g ∈ gs, c = ApiCall.changeAliasIPs g.1 (aliasPayload server g) := by
  induction gs with
  | nil => simp [changeAliasCalls] at hc
  | cons g rest ih =>
    cases hd : dry with
    | true =>
      subst hd
      rw [show changeAliasCalls p true server (g :: rest)
            = changeAliasCalls p true server rest from by simp [changeAliasCalls]] at hc
      obtain ⟨x, hx, hcx⟩ := ih hc
      exact ⟨x, by simp [hx], hcx⟩
    | false =>
      subst hd
      cases hk : p.changeAliasOk g.1 with
      | true =>
        simp only [changeAliasCalls, hk, Bool.false_eq_true, if_false, if_true,
          List.mem_cons] at hc
        rcases hc with hc | hc
        · exact ⟨g, by simp, hc⟩
        · obtain ⟨x, hx, hcx⟩ := ih hc
          exact ⟨x, by simp [hx], hcx⟩
      | false =>
        simp only [changeAliasCalls, hk, Bool.false_eq_true, if_false,
          List.mem_singleton] at hc
        exact ⟨g, by simp, hc⟩

lemma mem_aliasPayload (server : Server) (g : Int × List String) (x : String) :
    x ∈ aliasPayload server g ↔ x ∈ currentAliases server g.1 ∨ x ∈ g.2 := by
  simp [aliasPayload, pySet]

lemma nodup_aliasPayload (server : Server) (g : Int × List String) :
    (aliasPayload server g).Nodup :=
  List.nodup_dedup _

lemma matchAlias_isOk (lib : IpLib) (a : String) (pnets : List PrivateNet)
    (hp : ∀ x ∈ pnets, (lib.parse x.ip).isSome = true)
    (ha : (lib.parse a).isSome = true) :
    ∃ r, matchAlias lib a pnets = .ok r := by
  induction pnets with
  | nil => exact ⟨none, rfl⟩
  | cons pnet rest ih =>
    obtain ⟨sv, hsv⟩ := Option.isSome_iff_exists.mp (hp pnet (by simp))
    obtain ⟨av, hav⟩ := Option.isSome_iff_exists.mp ha
    obtain ⟨r, hr⟩ := ih fun x hx => hp x (by simp [hx])
    unfold matchAlias
    rw [hsv, hav]
    dsimp only
    split_ifs <;> first
      | exact ⟨_, rfl⟩
      | exact ⟨r, hr⟩

lemma matchAlias_error_of_bad (lib : IpLib) (a : String) (pnet : PrivateNet)
    (rest : List PrivateNet) (hp : (lib.parse pnet.ip).isSome = true)
    (ha : lib.parse a = none) :
    matchAlias lib a (pnet :: rest) = .error () := by
  obtain ⟨sv, hsv⟩ := Option.isSome_iff_exists.mp hp
  unfold matchAlias
  rw [hsv, ha]

lemma groupAliases_error_of_bad (lib : IpLib) (pnet0 : PrivateNet)
    (rest0 : List PrivateNet)
    (hp : ∀ x ∈ pnet0 :: rest0, (lib.parse x.ip).isSome = true)
    (aliases : List String) (groups : List (Int × List String))
    (um : List String) (hbad : ∃ a ∈ aliases, lib.parse a = none) :
    groupAliases lib (pnet0 :: rest0) aliases groups um = .error () := by
  induction aliases generalizing groups um with
  | nil => simp at hbad
  | cons a rest ih =>
    obtain ⟨b, hb, hbn⟩ := hbad
    cases hpa : lib.parse a with
    | none =>
      have herr := matchAlias_error_of_bad lib a pnet0 rest0 (hp pnet0 (by simp)) hpa
      unfold groupAliases
      rw [herr]
    | some v =>
      obtain ⟨r, hr⟩ := matchAlias_isOk lib a (pnet0 :: rest0) hp (by simp [hpa])
      have hbr : b ∈ rest := by
        rcases List.mem_cons.mp hb with h | h
        · subst h; rw [hpa] at hbn; cases hbn
        · exact h
      unfold groupAliases
      rw [hr]
      cases r with
      | none => exact ih groups (um ++ [a]) ⟨b, hbr, hbn⟩
      | some net => exact ih (setdefaultAppend net a groups) um ⟨b, hbr, hbn⟩

lemma assign_alias_ips_eq (lib : IpLib) (cfg : Config) (p : Provider)
    (dry : Bool) (hane : cfg.alias_ips ≠ []) (hso : p.serverOk = true)
    (hpn : p.server.private_net ≠ []) (groups : List (Int × List String))
    (um : List String)
    (hg : groupAliases lib p.server.private_net cfg.alias_ips [] [] = .ok (groups, um))
    (hgne : groups ≠ []) :
    assign_alias_ips lib cfg p dry = changeAliasCalls p dry p.server groups := by
  have h1 : cfg.alias_ips.isEmpty = false := by
    simpa [List.isEmpty_iff] using hane
  have h2 : p.server.private_net.isEmpty = false := by
    simpa [List.isEmpty_iff] using hpn
  have h3 : groups.isEmpty = false := by
    simpa [List.isEmpty_iff] using hgne
  simp [assign_alias_ips, h1, hso, h2, hg, h3]

lemma alias_trace_dry (lib : IpLib) (cfg : Config) (p : Provider) :
    (assign_alias_ips lib cfg p true).2 = [] := by
  unfold assign_alias_ips
  split
  · rfl
  split
  · rfl
  split
  · rfl
  split
  · rfl
  split
  · rfl
  exact congrArg Prod.snd (changeAliasCalls_dry p p.server _)

lemma assign_all_live_eq (cfg : Config) (p : Provider) (sid : Int)
    (fips : List FloatingIP) (hserver : p.serverOk = true)
    (hq : get_floating_ips_by_labels cfg p = .ok fips) :
    assign_all_floating_ips cfg p false sid =
      .ok ((fips.filter fun f => !fipOwnedBy f sid).all fun f => p.assignOk f.id,
           (fips.filter fun f => !fipOwnedBy f sid).map
             fun f => ApiCall.assignFloatingIP f.id) := by
  unfold assign_all_floating_ips
  rw [hq]
  simp only [Bind.bind, Except.bind]
  cases hfe : fips.isEmpty with
  | true =>
    have hnil : fips = [] := List.isEmpty_iff.mp hfe
    subst hnil
    simp [Pure.pure, Except.pure]
  | false => simp [hfe, Pure.pure, Except.pure, processFips_live p sid hserver fips]

lemma assign_all_dry_ok (cfg : Config) (p : Provider) (sid : Int)
    (fr : Bool × List ApiCall)
    (h : assign_all_floating_ips cfg p true sid = .ok fr) : fr = (true, []) := by
  unfold assign_all_floating_ips get_floating_ips_by_labels at h
  by_cases h1 : cfg.floating_ip_labels.isEmpty
  · simp [h1, Bind.bind, Except.bind, Pure.pure, Except.pure] at h
    exact h.symm
  · cases h2 : p.listOk with
    | false => simp [h1, h2, Bind.bind, Except.bind] at h
    | true =>
      simp only [h1, h2, Bool.false_eq_true, if_false, if_true, Bind.bind,
        Except.bind] at h
      cases h3 : p.floating_ips.isEmpty with
      | true =>
        simp [h3, Pure.pure, Except.pure] at h
        exact h.symm
      | false =>
        simp [h3, Pure.pure, Except.pure,
          processFips_dry p sid p.floating_ips] at h
        exact h.symm

lemma assign_all_isOk (cfg : Config) (p : Provider) (dry : Bool) (sid : Int)
    (hl : p.listOk = true) :
    ∃ fr, assign_all_floating_ips cfg p dry sid = .ok fr := by
  by_cases h1 : cfg.floating_ip_labels.isEmpty
  · exact ⟨(true, []), by
      simp [assign_all_floating_ips, get_floating_ips_by_labels, h1,
        Bind.bind, Except.bind, Pure.pure, Except.pure]⟩
  · by_cases h2 : p.floating_ips.isEmpty
    · exact ⟨(true, []), by
        simp [assign_all_floating_ips, get_floating_ips_by_labels, h1, hl, h2,
          Bind.bind, Except.bind, Pure.pure, Except.pure]⟩
    · exact ⟨processFips p dry sid p.floating_ips, by
        simp [assign_all_floating_ips, get_floating_ips_by_labels, h1, hl, h2,
          Bind.bind, Except.bind, Pure.pure, Except.pure]⟩

/-! ## Claim theorems -/

/-- C5: for every floating IP returned by the label query whose current
owner is this node, `assign_all_floating_ips` issues no reassignment
call; every other matched floating IP (including unassigned ones) has a
reassignment attempted; and the phase result is `true` iff every
attempted reassignment succeeded.  Stated as the exact characterization
of the phase: its trace is precisely one `assign` call per non-owned
matched IP and its result is the conjunction of those attempts'
outcomes (given that the server lookup inside the attempt succeeds). -/
theorem claim_C5_floating_reconcile (cfg : Config) (p : Provider) (sid : Int)
    (fips : List FloatingIP) (hserver : p.serverOk = true)
    (hq : get_floating_ips_by_labels cfg p = .ok fips) :
    assign_all_floating_ips cfg p false sid =
      .ok ((fips.filter fun f => !fipOwnedBy f sid).all fun f => p.assignOk f.id,
           (fips.filter fun f => !fipOwnedBy f sid).map
             fun f => ApiCall.assignFloatingIP f.id) :=
  assign_all_live_eq cfg p sid fips hserver hq

/-- Witness for C5: three matched floating IPs, one already owned by
server 7 (no call), one owned by server 9 and one unassigned (both
attempted); the attempt on IP 2 fails, so the phase reports `false`. -/
theorem claim_C5_witness :
    pE.serverOk = true ∧
    get_floating_ips_by_labels cfgE pE = .ok pE.floating_ips ∧
    assign_all_floating_ips cfgE pE false 7 =
      .ok (false, [ApiCall.assignFloatingIP 2, ApiCall.assignFloatingIP 3]) := by
  refine ⟨rfl, rfl, ?_⟩
  have h := claim_C5_floating_reconcile cfgE pE 7 pE.floating_ips rfl rfl
  rw [h]
  rfl

/-- C6: every alias-mutating call issued by `assign_alias_ips` targets a
subnet group produced by the matcher and carries exactly the
deduplicated union of that subnet's pre-existing aliases and the
declared addresses matched to it; in particular the payload is a
superset of the pre-existing alias list, so no pre-existing alias is
dropped. -/
theorem claim_C6_alias_union (lib : IpLib) (cfg : Config) (p : Provider)
    (dry : Bool) (c : ApiCall)
    (hc : c ∈ (assign_alias_ips lib cfg p dry).2) :
    ∃ groups um,
      groupAliases lib p.server.private_net cfg.alias_ips [] [] = .ok (groups, um) ∧
      ∃ g ∈ groups,
        c = ApiCall.changeAliasIPs g.1 (aliasPayload p.server g) ∧
        (∀ x ∈ currentAliases p.server g.1, x ∈ aliasPayload p.server g) ∧
        (∀ x, x ∈ aliasPayload p.server g ↔
          x ∈ currentAliases p.server g.1 ∨ x ∈ g.2) ∧
        (aliasPayload p.server g).Nodup := by
  unfold assign_alias_ips at hc
  split at hc
  · simp at hc
  split at hc
  · simp at hc
  split at hc
  · simp at hc
  split at hc
  · simp at hc
  rename_i groups um heq
  split at hc
  · simp at hc
  obtain ⟨g, hg, hcg⟩ := changeAliasCalls_mem p dry p.server groups c hc
  exact ⟨groups, um, heq, g, hg, hcg,
    fun x hx => (mem_aliasPayload p.server g x).mpr (Or.inl hx),
    fun x => mem_aliasPayload p.server g x,
    nodup_aliasPayload p.server g⟩

/-- Witness for C6: the one call of a concrete live run carries the
union payload for its subnet group. -/
theorem claim_C6_witness :
    ApiCall.changeAliasIPs 1 ["10.0.0.100"] ∈
      (assign_alias_ips realIpLib cfgA pA false).2 ∧
    ∃ groups um,
      groupAliases realIpLib pA.server.private_net cfgA.alias_ips [] [] =
        .ok (groups, um) ∧
      ∃ g ∈ groups,
        ApiCall.changeAliasIPs 1 ["10.0.0.100"] =
          ApiCall.changeAliasIPs g.1 (aliasPayload pA.server g) ∧
        (∀ x ∈ currentAliases pA.server g.1, x ∈ aliasPayload pA.server g) ∧
        (∀ x, x ∈ aliasPayload pA.server g ↔
          x ∈ currentAliases pA.server g.1 ∨ x ∈ g.2) ∧
        (aliasPayload pA.server g).Nodup := by
  have hmem : ApiCall.changeAliasIPs 1 ["10.0.0.100"] ∈
      (assign_alias_ips realIpLib cfgA pA false).2 := by decide
  exact ⟨hmem, claim_C6_alias_union realIpLib cfgA pA false _ hmem⟩

/-- C7: with `dry_run` set, `execute_failover` issues zero mutating
Cloud API calls for every configuration and provider state: whenever it
returns at all, its mutating-call trace is empty. -/
theorem claim_C7_dry_run_no_mutations (lib : IpLib) (cfg : Config)
    (p : Provider) (sid : Int) (b : Bool) (t : List ApiCall)
    (h : execute_failover lib cfg p true sid = .ok (b, t)) : t = [] := by
  unfold execute_failover at h
  cases hf : assign_all_floating_ips cfg p true sid with
  | error e => rw [hf] at h; simp [Bind.bind, Except.bind] at h
  | ok fr =>
    rw [hf] at h
    simp only [Bind.bind, Except.bind, Pure.pure, Except.pure,
      Except.ok.injEq] at h
    have hfr : fr = (true, []) := assign_all_dry_ok cfg p sid fr hf
    have ht : t = fr.2 ++ (assign_alias_ips lib cfg p true).2 :=
      (congrArg Prod.snd h).symm
    rw [ht, hfr, alias_trace_dry lib cfg p]
    rfl

/-- Witness for C7: a concrete dry run over a provider with one matched
floating IP and one subnet group returns success with an empty
mutating-call trace. -/
theorem claim_C7_witness :
    execute_failover realIpLib cfgA pA true 7 = .ok (true, []) ∧
    ([] : List ApiCall) = [] :=
  ⟨rfl, claim_C7_dry_run_no_mutations realIpLib cfgA pA 7 true [] rfl⟩

/-- C9: `Config._validate` raises `ConfigError` for
`hetzner_api_token` both when the key is absent and when it is present
with a falsy value such as the empty string — presence with an empty
value is treated the same as missing. -/
theorem claim_C9_empty_token (d : ConfigDoc)
    (h : d.get "hetzner_api_token" = none ∨
      d.get "hetzner_api_token" = some (YamlValue.vStr "")) :
    validateConfig d = .error "Required field hetzner_api_token missing in config" := by
  have ht : d.truthyAt "hetzner_api_token" = false := by
    rcases h with h | h
    · simp [ConfigDoc.truthyAt, h]
    · simp only [ConfigDoc.truthyAt, h, YamlValue.pyTruthy]
      rfl
  simp [validateConfig, REQUIRED_FIELDS, validateRequired, ht,
    Bind.bind, Except.bind]

/-- Witness for C9: an empty-string token and a missing token both
produce the same `ConfigError`. -/
theorem claim_C9_witness :
    docEmptyToken.get "hetzner_api_token" = some (YamlValue.vStr "") ∧
    validateConfig docEmptyToken =
      .error "Required field hetzner_api_token missing in config" ∧
    validateConfig docNoToken =
      .error "Required field hetzner_api_token missing in config" :=
  ⟨rfl, claim_C9_empty_token docEmptyToken (Or.inr rfl),
    claim_C9_empty_token docNoToken (Or.inl rfl)⟩

/-- C10: a `--dry-run` invocation of `main` exits with code 0 (and
issues no mutating call) whenever the configuration loads, the server
id resolves and the floating-IP listing succeeds — regardless of how
many floating IPs would need reassignment or how many alias IPs are
configured. -/
theorem claim_C10_dry_run_exit_zero (args : Args) (w : World) (cfg : Config)
    (sid : Int) (fips : List FloatingIP)
    (hdry : args.dry_run = true)
    (hcfg : w.configResult = .ok cfg)
    (hsid : resolveServerId args w = .ok sid)
    (hq : get_floating_ips_by_labels cfg w.provider = .ok fips) :
    main args w = ⟨0, [], []⟩ := by
  unfold main
  rw [hdry, hcfg]
  simp only [Bool.not_true, Bool.and_false, Bool.false_eq_true, if_false]
  rw [hsid]
  simp only [if_true]
  rw [hq]

/-- Witness for C10: a dry run over a provider with two floating IPs
pending reassignment still exits 0. -/
theorem claim_C10_witness :
    argsDry.dry_run = true ∧
    worldDry.configResult = .ok cfgE ∧
    resolveServerId argsDry worldDry = .ok 7 ∧
    get_floating_ips_by_labels cfgE worldDry.provider = .ok pE.floating_ips ∧
    main argsDry worldDry = ⟨0, [], []⟩ :=
  ⟨rfl, rfl, rfl, rfl,
    claim_C10_dry_run_exit_zero argsDry worldDry cfgE 7 pE.floating_ips
      rfl rfl rfl rfl⟩

/-- C1 counterexample: a fully converged live state — the subnet group's
computed union equals the existing alias list — on which
`assign_alias_ips` still issues a mutating call, so the second of two
identical runs of `execute_failover` also issues one; the claim's
"no mutating call for an already-correct subnet" is false. -/
theorem claim_C1_counterexample :
    aliasPayload pA.server (1, ["10.0.0.100"]) = currentAliases pA.server 1 ∧
    groupAliases realIpLib pA.server.private_net cfgA.alias_ips [] [] =
      .ok ([(1, ["10.0.0.100"])], []) ∧
    execute_failover realIpLib cfgA pA false 7 =
      .ok (true, [ApiCall.changeAliasIPs 1 ["10.0.0.100"]]) ∧
    (assign_alias_ips realIpLib cfgA pA false).2 ≠ [] :=
  ⟨rfl, rfl, rfl, by decide⟩

/-- C1 amended: in live mode `assign_alias_ips` issues one mutating call
per subnet group even when the computed union equals the existing alias
list; consequently a second `execute_failover` run with no intervening
state change (all floating IPs owned, every matched alias already
present) issues no floating-IP reassignment calls but one alias call per
subnet group, each carrying a payload set-equal to the existing aliases
(leaving provider state unchanged), and returns `True` both times. -/
theorem claim_C1_amended (lib : IpLib) (cfg : Config) (p : Provider)
    (sid : Int) (groups : List (Int × List String)) (um : List String)
    (hlist : p.listOk = true)
    (howned : ∀ fip ∈ p.floating_ips, fipOwnedBy fip sid = true)
    (hserver : p.serverOk = true)
    (hok : ∀ n, p.changeAliasOk n = true)
    (hane : cfg.alias_ips ≠ [])
    (hpn : p.server.private_net ≠ [])
    (hg : groupAliases lib p.server.private_net cfg.alias_ips [] [] = .ok (groups, um))
    (hgne : groups ≠ [])
    (hconv : ∀ g ∈ groups, ∀ a ∈ g.2, a ∈ currentAliases p.server g.1) :
    execute_failover lib cfg p false sid =
      .ok (true, groups.map fun g => ApiCall.changeAliasIPs g.1 (aliasPayload p.server g)) ∧
    ∀ g ∈ groups, ∀ x,
      x ∈ aliasPayload p.server g ↔ x ∈ currentAliases p.server g.1 := by
  constructor
  · unfold execute_failover
    rw [assign_all_owned cfg p false sid hlist howned]
    rw [show assign_alias_ips lib cfg p false
          = changeAliasCalls p false p.server groups from
        assign_alias_ips_eq lib cfg p false hane hserver hpn groups um hg hgne]
    rw [changeAliasCalls_allOk p p.server groups fun g _ => hok g.1]
    simp [Bind.bind, Except.bind, Pure.pure, Except.pure]
  · intro g hg2 x
    rw [mem_aliasPayload]
    constructor
    · rintro (h | h)
      · exact h
      · exact hconv g hg2 x h
    · exact Or.inl

/-- Witness for C1 amended: the converged concrete state re-issues
exactly one alias call whose payload equals the existing alias set. -/
theorem claim_C1_witness :
    (∀ fip ∈ pA.floating_ips, fipOwnedBy fip 7 = true) ∧
    (∀ g ∈ [((1 : Int), ["10.0.0.100"])], ∀ a ∈ g.2,
      a ∈ currentAliases pA.server g.1) ∧
    (execute_failover realIpLib cfgA pA false 7 =
      .ok (true, [((1 : Int), ["10.0.0.100"])].map
        fun g => ApiCall.changeAliasIPs g.1 (aliasPayload pA.server g)) ∧
     ∀ g ∈ [((1 : Int), ["10.0.0.100"])], ∀ x,
       x ∈ aliasPayload pA.server g ↔ x ∈ currentAliases pA.server g.1) :=
  ⟨by decide, by decide,
    claim_C1_amended realIpLib cfgA pA 7 [((1 : Int), ["10.0.0.100"])] []
      rfl (by decide) rfl (fun _ => rfl) (by decide) (by decide) rfl
      (by decide) (by decide)⟩

/-- C2 counterexample: two subnet groups; the mutating call for the
first fails, `assign_alias_ips` returns `false` and the second group's
mutating call is never attempted — contradicting "the remaining subnet
groups are still attempted". -/
theorem claim_C2_counterexample :
    groupAliases realIpLib pB.server.private_net cfgB.alias_ips [] [] =
      .ok ([(1, ["10.0.0.100"]), (2, ["10.0.1.100"])], []) ∧
    assign_alias_ips realIpLib cfgB pB false =
      (false, [ApiCall.changeAliasIPs 1 ["10.0.0.100"]]) ∧
    ApiCall.changeAliasIPs 2 ["10.0.1.100"] ∉
      (assign_alias_ips realIpLib cfgB pB false).2 :=
  ⟨rfl, rfl, by decide⟩

/-- C2 amended: when the mutating call for one subnet group fails, the
failure is caught at the phase boundary: the phase returns `false` and
the mutating calls for the subnet groups after the failing one are not
attempted (the trace is exactly the successful prefix plus the failing
call). -/
theorem claim_C2_amended (lib : IpLib) (cfg : Config) (p : Provider)
    (pre : List (Int × List String)) (g : Int × List String)
    (post : List (Int × List String)) (um : List String)
    (hane : cfg.alias_ips ≠ []) (hserver : p.serverOk = true)
    (hpn : p.server.private_net ≠ [])
    (hg : groupAliases lib p.server.private_net cfg.alias_ips [] [] =
      .ok (pre ++ g :: post, um))
    (hpre : ∀ x ∈ pre, p.changeAliasOk x.1 = true)
    (hfail : p.changeAliasOk g.1 = false) :
    assign_alias_ips lib cfg p false =
      (false,
        (pre.map fun x => ApiCall.changeAliasIPs x.1 (aliasPayload p.server x)) ++
          [ApiCall.changeAliasIPs g.1 (aliasPayload p.server g)]) := by
  rw [assign_alias_ips_eq lib cfg p false hane hserver hpn (pre ++ g :: post) um hg
    (by simp)]
  exact changeAliasCalls_fail p p.server pre g post hpre hfail

/-- Witness for C2 amended: with an empty successful prefix, the trace
is exactly the one failing call. -/
theorem claim_C2_witness :
    groupAliases realIpLib pB.server.private_net cfgB.alias_ips [] [] =
      .ok ([] ++ ((1 : Int), ["10.0.0.100"]) :: [((2 : Int), ["10.0.1.100"])], []) ∧
    pB.changeAliasOk 1 = false ∧
    assign_alias_ips realIpLib cfgB pB false =
      (false,
        (([] : List (Int × List String)).map
          fun x => ApiCall.changeAliasIPs x.1 (aliasPayload pB.server x)) ++
          [ApiCall.changeAliasIPs 1 (aliasPayload pB.server (1, ["10.0.0.100"]))]) :=
  ⟨rfl, rfl,
    claim_C2_amended realIpLib cfgB pB [] ((1 : Int), ["10.0.0.100"])
      [((2 : Int), ["10.0.1.100"])] [] (by decide) rfl (by decide) rfl
      (by decide) rfl⟩

/-- C3 counterexample: when the floating-IP listing query fails with
labels configured, the raised `HetznerAPIError` propagates out of
`execute_failover` (it is caught only in the CLI), so "no APIError
propagates out of execute_failover" is false. -/
theorem claim_C3_counterexample :
    cfgC.floating_ip_labels ≠ [] ∧
    execute_failover realIpLib cfgC pC false 7 = .error () :=
  ⟨by decide, rfl⟩

/-- C3 amended: per-resource floating-IP reassignment failures are
caught at the individual operation and folded into the floating phase's
boolean, and a failing reassignment prevents neither the remaining
floating IPs nor the alias phase from being attempted.  Alias-mutation
failures are caught at the alias phase boundary, not at the individual
operation — they abort the remaining subnet groups — and are folded
into the alias phase's boolean.  No failure of either kind raises out
of `execute_failover`: whenever the listing succeeds it returns the
conjunction of the two phase booleans with both phases' traces.  But a
failure of the floating-IP listing query itself is not folded into a
boolean: it raises `HetznerAPIError` out of `execute_failover` (caught
only in the CLI), preventing the alias phase. -/
theorem claim_C3_amended :
    (∀ (lib : IpLib) (cfg : Config) (p : Provider) (dry : Bool) (sid : Int),
      p.listOk = true →
        ∃ fr, assign_all_floating_ips cfg p dry sid = .ok fr ∧
          execute_failover lib cfg p dry sid =
            .ok (fr.1 && (assign_alias_ips lib cfg p dry).1,
                 fr.2 ++ (assign_alias_ips lib cfg p dry).2)) ∧
    (∀ (cfg : Config) (p : Provider) (sid : Int) (fips : List FloatingIP)
        (b : Bool) (t : List ApiCall),
      p.serverOk = true →
        get_floating_ips_by_labels cfg p = .ok fips →
          assign_all_floating_ips cfg p false sid = .ok (b, t) →
            ∀ fip ∈ fips, fipOwnedBy fip sid = false →
              ApiCall.assignFloatingIP fip.id ∈ t) ∧
    (∀ (lib : IpLib) (cfg : Config) (p : Provider)
        (pre : List (Int × List String)) (g : Int × List String)
        (post : List (Int × List String)) (um : List String),
      cfg.alias_ips ≠ [] → p.serverOk = true →
        p.server.private_net ≠ [] →
          groupAliases lib p.server.private_net cfg.alias_ips [] [] =
            .ok (pre ++ g :: post, um) →
            (∀ x ∈ pre, p.changeAliasOk x.1 = true) →
              p.changeAliasOk g.1 = false →
                assign_alias_ips lib cfg p false =
                  (false,
                    (pre.map fun x =>
                      ApiCall.changeAliasIPs x.1 (aliasPayload p.server x)) ++
                      [ApiCall.changeAliasIPs g.1 (aliasPayload p.server g)])) ∧
    (∀ (lib : IpLib) (cfg : Config) (p : Provider) (dry : Bool) (sid : Int),
      cfg.floating_ip_labels ≠ [] → p.listOk = false →
        execute_failover lib cfg p dry sid = .error ()) := by
  refine ⟨?_, ?_, ?_, ?_⟩
  · intro lib cfg p dry sid hl
    obtain ⟨fr, hfr⟩ := assign_all_isOk cfg p dry sid hl
    refine ⟨fr, hfr, ?_⟩
    simp [execute_failover, hfr, Bind.bind, Except.bind, Pure.pure, Except.pure]
  · intro cfg p sid fips b t hserver hq h fip hfip howned
    rw [assign_all_live_eq cfg p sid fips hserver hq] at h
    have ht : t = (fips.filter fun f => !fipOwnedBy f sid).map
        fun f => ApiCall.assignFloatingIP f.id := by
      have := (Except.ok.inj h).symm
      exact congrArg Prod.snd this
    rw [ht]
    exact List.mem_map_of_mem _ (List.mem_filter.mpr ⟨hfip, by simp [howned]⟩)
  · intro lib cfg p pre g post um hane hserver hpn hg hpre hfail
    rw [assign_alias_ips_eq lib cfg p false hane hserver hpn
      (pre ++ g :: post) um hg (by simp)]
    exact changeAliasCalls_fail p p.server pre g post hpre hfail
  · intro lib cfg p dry sid hlab hl
    have h1 : cfg.floating_ip_labels.isEmpty = false := by
      simpa [List.isEmpty_iff] using hlab
    simp [execute_failover, assign_all_floating_ips, get_floating_ips_by_labels,
      h1, hl, Bind.bind, Except.bind]

/-- Witness for C3 amended: the four parts applied at concrete runs —
a successful listing yields a returned value composed of both phase
results, the unassigned IP 3 is still attempted although IP 2's
reassignment fails, a failing alias mutation yields a `false` phase
with the failing call last in the trace, and a failed listing with
labels configured raises. -/
theorem claim_C3_witness :
    pE.listOk = true ∧
    (∃ fr, assign_all_floating_ips cfgE pE false 7 = .ok fr ∧
      execute_failover realIpLib cfgE pE false 7 =
        .ok (fr.1 && (assign_alias_ips realIpLib cfgE pE false).1,
             fr.2 ++ (assign_alias_ips realIpLib cfgE pE false).2)) ∧
    ApiCall.assignFloatingIP 3 ∈
      [ApiCall.assignFloatingIP 2, ApiCall.assignFloatingIP 3] ∧
    pB.changeAliasOk 1 = false ∧
    assign_alias_ips realIpLib cfgB pB false =
      (false,
        (([] : List (Int × List String)).map fun x =>
          ApiCall.changeAliasIPs x.1 (aliasPayload pB.server x)) ++
          [ApiCall.changeAliasIPs 1 (aliasPayload pB.server (1, ["10.0.0.100"]))]) ∧
    cfgC.floating_ip_labels ≠ [] ∧ pC.listOk = false ∧
    execute_failover realIpLib cfgC pC true 7 = .error () := by
  refine ⟨rfl, claim_C3_amended.1 realIpLib cfgE pE false 7 rfl, ?_, rfl, ?_,
    by decide, rfl,
    claim_C3_amended.2.2.2 realIpLib cfgC pC true 7 (by decide) rfl⟩
  · exact claim_C3_amended.2.1 cfgE pE 7 pE.floating_ips false
      [ApiCall.assignFloatingIP 2, ApiCall.assignFloatingIP 3] rfl rfl rfl
      ⟨3, "c", none⟩ (by decide) rfl
  · exact claim_C3_amended.2.2.1 realIpLib cfgB pB []
      ((1 : Int), ["10.0.0.100"]) [((2 : Int), ["10.0.1.100"])] []
      (by decide) rfl (by decide) rfl (by decide) rfl

/-- C4 counterexample: one unparseable declared alias aborts the whole
alias phase — the phase returns `false` with no mutating call, and the
remaining (matchable) address is not processed, although the same
declaration without the unparseable entry succeeds with a mutating
call. -/
theorem claim_C4_counterexample :
    realIpLib.parse "bogus" = none ∧
    assign_alias_ips realIpLib cfgD pD false = (false, []) ∧
    assign_alias_ips realIpLib cfgD2 pD false =
      (true, [ApiCall.changeAliasIPs 1 ["10.0.0.100"]]) :=
  ⟨rfl, rfl, rfl⟩

/-- C4 amended: an unparseable declared alias address causes the whole
alias phase to fail: the raised `ValueError` is caught only at the
phase boundary, so the phase returns `false`, the remaining declared
addresses are not processed, and no alias mutating call at all is
issued. -/
theorem claim_C4_amended (lib : IpLib) (cfg : Config) (p : Provider)
    (dry : Bool) (hane : cfg.alias_ips ≠ []) (hserver : p.serverOk = true)
    (hpn : p.server.private_net ≠ [])
    (hp : ∀ x ∈ p.server.private_net, (lib.parse x.ip).isSome = true)
    (hbad : ∃ a ∈ cfg.alias_ips, lib.parse a = none) :
    assign_alias_ips lib cfg p dry = (false, []) := by
  obtain ⟨pnet0, rest0, hpn0⟩ :
      ∃ pnet0 rest0, p.server.private_net = pnet0 :: rest0 := by
    cases hh : p.server.private_net with
    | nil => exact absurd hh hpn
    | cons a l => exact ⟨a, l, rfl⟩
  have herr : groupAliases lib p.server.private_net cfg.alias_ips [] [] =
      .error () := by
    rw [hpn0]
    exact groupAliases_error_of_bad lib pnet0 rest0 (hpn0 ▸ hp)
      cfg.alias_ips [] [] hbad
  have h1 : cfg.alias_ips.isEmpty = false := by
    simpa [List.isEmpty_iff] using hane
  have h2 : p.server.private_net.isEmpty = false := by
    simpa [List.isEmpty_iff] using hpn
  simp [assign_alias_ips, h1, hserver, h2, herr]

/-- Witness for C4 amended: the declaration containing `bogus` makes
the concrete live phase return `false` with an empty trace. -/
theorem claim_C4_witness :
    cfgD.alias_ips ≠ [] ∧
    (∃ a ∈ cfgD.alias_ips, realIpLib.parse a = none) ∧
    assign_alias_ips realIpLib cfgD pD false = (false, []) :=
  ⟨by decide, ⟨"bogus", by decide, rfl⟩,
    claim_C4_amended realIpLib cfgD pD false (by decide) rfl (by decide)
      (by decide) ⟨"bogus", by decide, rfl⟩⟩

/-- C8 counterexample: `--fake-server-id 0` without `--dry-run` slips
through the usage guard (Python truthiness treats 0 as absent): no
usage error is printed, the exit code is 0 in a benign world, and the
run proceeds as a normal live run. -/
theorem claim_C8_counterexample :
    argsZero.fake_server_id = some 0 ∧ argsZero.dry_run = false ∧
    (main argsZero worldA).exitCode = 0 ∧
    (main argsZero worldA).exitCode ≠ 1 ∧
    usageErrorMsg ∉ (main argsZero worldA).stderr := by
  refine ⟨rfl, rfl, rfl, by decide, ?_⟩
  rw [show (main argsZero worldA).stderr = [] from rfl]
  exact List.not_mem_nil _

/-- C8 amended: for every invocation in which `--fake-server-id` is
supplied with a nonzero id and `--dry-run` is not, `main` prints the
usage error to stderr, returns exit code 1, and consults no
collaborator at all (the result is a constant independent of the
world, with an empty call trace). -/
theorem claim_C8_amended (args : Args) (w : World)
    (hid : pyTruthyOptInt args.fake_server_id = true)
    (hdry : args.dry_run = false) :
    main args w = ⟨1, [usageErrorMsg], []⟩ := by
  unfold main
  rw [hid, hdry]
  rfl

/-- Witness for C8 amended: `--fake-server-id 5` without `--dry-run`
exits 1 with the usage message and an empty call trace. -/
theorem claim_C8_witness :
    pyTruthyOptInt argsFive.fake_server_id = true ∧
    argsFive.dry_run = false ∧
    main argsFive worldA = ⟨1, [usageErrorMsg], []⟩ :=
  ⟨rfl, rfl, claim_C8_amended argsFive worldA rfl rfl⟩

end HetznerVrrp
